import Mathlib

/-!
Verification development for the SensorTag sensor decoding and dispatch
layer (file bluepy/sensortag.py).  The Python classes are shallowly
embedded: pure decode formulas become functions over Nat / Int / Rat,
stateful delegates become explicit state-passing functions, and fallible
operations (struct unpacking, attribute access on unbound fields, list
indexing) return Except values.  Machine floats in the source only ever
divide small integers by powers of two or take ratios of integers, so the
rational-number embedding is exact for every property stated here.
-/

namespace Sensortag

/-- Failure conditions of the embedded Python code.  attributeError models
access to an attribute that was never assigned (or is None), structError a
struct.unpack length mismatch, indexError an out-of-range list index, and
btleError a transport-level lookup failure.  notReady is the name the spec
gives to a read of a data characteristic that was never bound by enable. -/
inductive PyErr where
  | notReady
  | structError
  | attributeError
  | indexError
  | btleError
deriving DecidableEq, Repr

/-- Python str.startswith, over the code point lists of the strings
(kept kernel-computable). -/
def strStartsWith (s pre : String) : Bool := pre.toList.isPrefixOf s.toList

/-- struct.unpack with format B: exactly one byte, returned unsigned. -/
def unpackB (d : List Nat) : Except PyErr Nat :=
  match d with
  | [b] => .ok b
  | _ => .error .structError

/-- Two bytes little endian, unsigned 16-bit value. -/
def u16le (a b : Nat) : Nat := a + 256 * b

/-- Two bytes little endian read as a signed 16-bit value. -/
def i16le (a b : Nat) : Int :=
  let r := u16le a b
  if r < 32768 then (r : Int) else (r : Int) - 65536

/-- struct.unpack with format <h: exactly two bytes, signed little endian. -/
def unpackH (d : List Nat) : Except PyErr Int :=
  match d with
  | [a, b] => .ok (i16le a b)
  | _ => .error .structError

/-- One byte read as a signed 8-bit value (struct format b). -/
def signedByte (b : Nat) : Int :=
  if b < 128 then (b : Int) else (b : Int) - 256

/-- struct.unpack with format bbb: exactly three signed bytes. -/
def unpack_bbb (d : List Nat) : Except PyErr (Int × Int × Int) :=
  match d with
  | [a, b, c] => .ok (signedByte a, signedByte b, signedByte c)
  | _ => .error .structError

/-- calcPoly from the source: coeffs[0] + coeffs[1]*x + coeffs[2]*x*x. -/
def calcPoly (coeffs : ℚ × ℚ × ℚ) (x : ℚ) : ℚ :=
  coeffs.1 + coeffs.2.1 * x + coeffs.2.2 * x * x

/-! Sensortag versions (module-level constants of the source). -/

def AUTODETECT : String := "-"
def SENSORTAG_V1 : String := "v1"
def SENSORTAG_2650 : String := "CC2650"
def SENSORTAG_1352R : String := "CC1352R"

/-- TI vendor UUID builder.  The source formats the 32-bit word
0xF0000000 + val into a fixed UUID string; the map from val to that string
is injective, so the embedding keeps the 32-bit word itself as the
identifier. -/
def TI_UUID (val : Nat) : Nat := 0xF0000000 + val

/-- Generation detection from the set of discovered services
(SensorTag.__init__, lines 451 to 459 of the source).  The version class
attribute is the AUTODETECT constant, so the probe always runs at
construction time. -/
def detectVersion (svcs : List Nat) : String :=
  if TI_UUID 0xAA70 ∈ svcs then
    if TI_UUID 0xFFA0 ∈ svcs then SENSORTAG_1352R
    else SENSORTAG_2650
  else SENSORTAG_V1

/-! Device capability registry (SensorTag.__init__, lines 467 to 497). -/

/-- The sensor roles the tag object exposes as attributes. -/
inductive Role where
  | irtemperature
  | accelerometer
  | humidity
  | magnetometer
  | barometer
  | gyroscope
  | keypress
  | lightmeter
  | battery
deriving DecidableEq, Repr

/-- Enumeration of all roles, used to state registry-wide facts. -/
def Role.all : List Role :=
  [.irtemperature, .accelerometer, .humidity, .magnetometer, .barometer,
   .gyroscope, .keypress, .lightmeter, .battery]

/-- The concrete driver classes the registry can instantiate. -/
inductive SensorKind where
  | irTemperatureSensor
  | irTemperatureSensorTMP007
  | temperatureSensorHDC2010
  | accelerometerSensor
  | accelerometerSensorMPU9250
  | accelerometerSensorADXL362
  | humiditySensor
  | humiditySensorHDC1000
  | humiditySensorHDC2010
  | magnetometerSensor
  | magnetometerSensorMPU9250
  | barometerSensor
  | barometerSensorBMP280
  | gyroscopeSensor
  | gyroscopeSensorMPU9250
  | keypressSensor
  | keypressSensorCC1352R
  | opticalSensorOPT3001
  | opticalSensorOPT3010
  | batterySensor
  | batterySensorCC1352R
deriving DecidableEq, Repr

/-- The per-generation attribute assignment of SensorTag.__init__.
The outer Option is attribute existence: none means the branch for that
version never assigns the attribute at all, so a later access raises
AttributeError.  The inner Option is the explicit value: some none models
an attribute explicitly set to None (absent capability), some (some k)
models a constructed driver of class k. -/
def assignedSensor (version : String) (r : Role) : Option (Option SensorKind) :=
  if version = SENSORTAG_V1 then
    match r with
    | .irtemperature => some (some .irTemperatureSensor)
    | .accelerometer => some (some .accelerometerSensor)
    | .humidity => some (some .humiditySensor)
    | .magnetometer => some (some .magnetometerSensor)
    | .barometer => some (some .barometerSensor)
    | .gyroscope => some (some .gyroscopeSensor)
    | .keypress => some (some .keypressSensor)
    | .lightmeter => some none
    | .battery => none
  else if version = SENSORTAG_2650 then
    match r with
    | .irtemperature => some (some .irTemperatureSensorTMP007)
    | .accelerometer => some (some .accelerometerSensorMPU9250)
    | .humidity => some (some .humiditySensorHDC1000)
    | .magnetometer => some (some .magnetometerSensorMPU9250)
    | .barometer => some (some .barometerSensorBMP280)
    | .gyroscope => some (some .gyroscopeSensorMPU9250)
    | .keypress => some (some .keypressSensor)
    | .lightmeter => some (some .opticalSensorOPT3001)
    | .battery => some (some .batterySensor)
  else if version = SENSORTAG_1352R then
    match r with
    | .irtemperature => some (some .temperatureSensorHDC2010)
    | .accelerometer => some (some .accelerometerSensorADXL362)
    | .humidity => some (some .humiditySensorHDC2010)
    | .magnetometer => some none
    | .barometer => some none
    | .gyroscope => some none
    | .keypress => some (some .keypressSensorCC1352R)
    | .lightmeter => some (some .opticalSensorOPT3010)
    | .battery => some (some .batterySensorCC1352R)
  else none

/-- What a call of enable_tag does with a looked-up attribute value. -/
inductive EnableOutcome where
  | warning (tag_name : String)
  | enabled (k : SensorKind)
deriving DecidableEq, Repr

/-- enable_tag from the source (lines 638 to 642): a None attribute value
produces a non-fatal warning, otherwise the driver is enabled. -/
def enable_tag (tag_name : String) (tagI : Option SensorKind) : EnableOutcome :=
  match tagI with
  | none => .warning tag_name
  | some k => .enabled k

/-! Peripheral model and the SensorBase binding protocol (lines 17 to 44). -/

/-- A characteristic: its identifier and the byte frame a read returns. -/
structure Characteristic where
  uuid : Nat
  value : List Nat
deriving DecidableEq, Repr

/-- A service: its identifier and its characteristics. -/
structure Service where
  uuid : Nat
  chars : List Characteristic
deriving DecidableEq, Repr

/-- The BLE peripheral as seen by the drivers: discovered services, the
firmware revision string, and, for the Gen1 barometer only, the byte frame
the calibration characteristic returns on its n-th read (hardware state
switched by the control register may change between reads). -/
structure Peripheral where
  services : List Service
  firmwareVersion : String
  calReads : Nat → List Nat

/-- getServiceByUUID: the transport raises when the service is absent. -/
def Peripheral.getServiceByUUID (p : Peripheral) (u : Nat) : Except PyErr Service :=
  match p.services.find? (fun s => s.uuid = u) with
  | some s => .ok s
  | none => .error .btleError

/-- getCharacteristics filtered by UUID. -/
def Service.getCharacteristics (s : Service) (u : Nat) : List Characteristic :=
  s.chars.filter (fun c => c.uuid = u)

/-- Python list indexing with [0]: raises IndexError on an empty list. -/
def listGet0 {α : Type} (l : List α) : Except PyErr α :=
  match l with
  | [] => .error .indexError
  | a :: _ => .ok a

/-- SensorBase instance state: the peripheral reference plus the three
lazily bound endpoints, all None after construction. -/
structure SensorBase where
  periph : Peripheral
  service : Option Service
  ctrl : Option Characteristic
  data : Option Characteristic

/-- SensorBase.__init__ (lines 22 to 26). -/
def SensorBase.init (p : Peripheral) : SensorBase :=
  { periph := p, service := none, ctrl := none, data := none }

/-- SensorBase.enable (lines 28 to 36) for a driver class with service,
control and data UUIDs: each endpoint is looked up only if still unbound,
then the on payload is written to the control characteristic (the write
itself has no observable effect on driver state). -/
def SensorBase.enable (svcU ctrlU dataU : Nat) (st : SensorBase) :
    Except PyErr SensorBase := do
  let service ← match st.service with
    | some s => Except.ok s
    | none => st.periph.getServiceByUUID svcU
  let ctrl ← match st.ctrl with
    | some c => Except.ok c
    | none => listGet0 (service.getCharacteristics ctrlU)
  let data ← match st.data with
    | some c => Except.ok c
    | none => listGet0 (service.getCharacteristics dataU)
  Except.ok { st with service := some service, ctrl := some ctrl, data := some data }

/-- SensorBase.read (lines 38 to 39): self.data.read().  On the state left
by __init__ the data attribute is None, so the read fails; the spec names
this failure condition NotReady. -/
def SensorBase.read (st : SensorBase) : Except PyErr (List Nat) :=
  match st.data with
  | some c => .ok c.value
  | none => .error .notReady

/-! Gen1 accelerometer (AccelerometerSensor, lines 112 to 127). -/

/-- AccelerometerSensor state: base state plus the scale chosen at
construction from the firmware revision string. -/
structure AccelerometerSensor where
  base : SensorBase
  scale : ℚ

/-- AccelerometerSensor.__init__: scale is 64.0 when the firmware
revision string starts with "1.4 ", else 16.0 (exact powers of two, so
the rational embedding of the float is exact). -/
def AccelerometerSensor.init (p : Peripheral) : AccelerometerSensor :=
  { base := SensorBase.init p,
    scale := if strStartsWith p.firmwareVersion "1.4 " then 64 else 16 }

/-- AccelerometerSensor.enable: SensorBase.enable with the class UUIDs
svc 0xAA10, ctrl 0xAA12, data 0xAA11. -/
def AccelerometerSensor.enable (s : AccelerometerSensor) :
    Except PyErr AccelerometerSensor := do
  let base ← s.base.enable (TI_UUID 0xAA10) (TI_UUID 0xAA12) (TI_UUID 0xAA11)
  Except.ok { s with base := base }

/-- AccelerometerSensor.read: unpack three signed bytes from the data
characteristic and divide each by the scale. -/
def AccelerometerSensor.read (s : AccelerometerSensor) :
    Except PyErr (ℚ × ℚ × ℚ) := do
  let d ← s.base.read
  let (a, b, c) ← unpack_bbb d
  Except.ok ((a : ℚ) / s.scale, (b : ℚ) / s.scale, (c : ℚ) / s.scale)

/-! Gen1 barometer (BarometerSensor, lines 279 to 310). -/

/-- The calibration constants computed by BarometerSensor.enable. -/
structure BaroCal where
  c1_s : ℚ
  c2_s : ℚ
  sensPoly : ℚ × ℚ × ℚ
  offsPoly : ℚ × ℚ × ℚ
deriving DecidableEq, Repr

/-- struct.unpack with format <HHHHhhhh: exactly 16 bytes, four unsigned
then four signed 16-bit little-endian values. -/
def unpackCal (d : List Nat) :
    Except PyErr (Nat × Nat × Nat × Nat × Int × Int × Int × Int) :=
  match d with
  | [a0, a1, b0, b1, c0, c1, d0, d1, e0, e1, f0, f1, g0, g1, h0, h1] =>
      .ok (u16le a0 a1, u16le b0 b1, u16le c0 c1, u16le d0 d1,
           i16le e0 e1, i16le f0 f1, i16le g0 g1, i16le h0 h1)
  | _ => .error .structError

/-- Lines 296 to 299: conversion of the eight raw calibration values into
the stored coefficients (all divisors and factors are powers of two, so
the rational embedding of the float arithmetic is exact). -/
def mkBaroCal (cs : Nat × Nat × Nat × Nat × Int × Int × Int × Int) : BaroCal :=
  let (c1, c2, c3, c4, c5, c6, c7, c8) := cs
  { c1_s := (c1 : ℚ) / 2 ^ 24,
    c2_s := (c2 : ℚ) / 2 ^ 10,
    sensPoly := ((c3 : ℚ) / 1, (c4 : ℚ) / 2 ^ 17, (c5 : ℚ) / 2 ^ 34),
    offsPoly := ((c6 : ℚ) * 2 ^ 14, (c7 : ℚ) / 8, (c8 : ℚ) / 2 ^ 19) }

/-- BarometerSensor state: base state, whether the calibration
characteristic attribute has been bound, how many calibration reads have
been performed against the peripheral, and the calibration coefficient
attributes (None until first assigned; __init__ assigns none of them). -/
structure BarometerSensor where
  base : SensorBase
  calChrBound : Bool
  calReadCount : Nat
  cal : Option BaroCal

/-- BarometerSensor.__init__ (lines 286 to 287): only SensorBase.__init__
runs, so no calibration constants exist after construction. -/
def BarometerSensor.init (p : Peripheral) : BarometerSensor :=
  { base := SensorBase.init p, calChrBound := false, calReadCount := 0, cal := none }

/-- BarometerSensor.enable (lines 289 to 300): run the base enable with
svc 0xAA40, ctrl 0xAA42, data 0xAA41 (sensorOn is None so no on payload
is written), bind the calibration characteristic, write the mode switch
command 0x02, read the calibration characteristic, convert and store the
coefficients, write 0x01.  Every call performs the whole sequence again;
there is no guard around the calibration load. -/
def BarometerSensor.enable (s : BarometerSensor) : Except PyErr BarometerSensor := do
  let base ← s.base.enable (TI_UUID 0xAA40) (TI_UUID 0xAA42) (TI_UUID 0xAA41)
  let service ← match base.service with
    | some sv => Except.ok sv
    | none => Except.error PyErr.attributeError
  let _calChr ← listGet0 (service.getCharacteristics (TI_UUID 0xAA43))
  let raw := s.base.periph.calReads s.calReadCount
  let cs ← unpackCal raw
  Except.ok { base := base, calChrBound := true,
              calReadCount := s.calReadCount + 1, cal := some (mkBaroCal cs) }

/-- BarometerSensor.read (lines 303 to 310): decode (rawT, rawP) and apply
the stored calibration; fails when the coefficient attributes were never
assigned (read before any enable). -/
def BarometerSensor.read (s : BarometerSensor) : Except PyErr (ℚ × ℚ) := do
  let d ← s.base.read
  let (rawT, rawP) ← match d with
    | [a, b, c, e] => Except.ok (i16le a b, (u16le c e : Int))
    | _ => Except.error PyErr.structError
  let cal ← match s.cal with
    | some cal => Except.ok cal
    | none => Except.error PyErr.attributeError
  let temp := cal.c1_s * (rawT : ℚ) + cal.c2_s
  let sens := calcPoly cal.sensPoly (rawT : ℚ)
  let offs := calcPoly cal.offsPoly (rawT : ℚ)
  Except.ok (temp, (sens * (rawP : ℚ) + offs) / (100 * 2 ^ 14))

/-! Notification delegates (lines 499 to 586). -/

/-- The high-level events a delegate can emit.  A buttonDown, buttonUp or
buttonHold event carries the button value the callback receives; a vector
event is the render of a completed x, y, z accelerometer reading. -/
inductive Event where
  | buttonDown (but : Nat)
  | buttonUp (but : Nat)
  | buttonHold (but : Nat)
  | vector (x y z : Int)
deriving DecidableEq, Repr

def BUTTON_L : Nat := 0x02
def BUTTON_R : Nat := 0x01
def ALL_BUTTONS : Nat := BUTTON_L ||| BUTTON_R

/-- Low 8 bits of the Python infinite-width bitwise complement.  Every use
in the source is masked by ALL_BUTTONS = 0x03, on which the two agree. -/
def cmpl8 (x : Nat) : Nat := x ^^^ 255

/-- KeypressDelegate state: the last observed button bitmask, 0 at
construction (lines 510 to 512). -/
structure KState where
  lastVal : Nat
deriving DecidableEq, Repr

/-- KeypressDelegate.handleNotification (lines 514 to 524): unpack one
byte, emit a buttonDown event for newly set masked bits, then a buttonUp
event for newly cleared masked bits, then store the new value.  The hnd
argument is ignored by the source. -/
def KeypressDelegate.handleNotification (st : KState) (_hnd : Nat) (data : List Nat) :
    Except PyErr (KState × List Event) :=
  match unpackB data with
  | .error e => .error e
  | .ok val =>
      let down := (val &&& cmpl8 st.lastVal) &&& ALL_BUTTONS
      let downEvts := if down ≠ 0 then [Event.buttonDown down] else []
      let up := (cmpl8 val &&& st.lastVal) &&& ALL_BUTTONS
      let upEvts := if up ≠ 0 then [Event.buttonUp up] else []
      .ok (⟨val⟩, downEvts ++ upEvts)

/-- The edge formulas exactly as the spec words them: down is the masked
conjunction of the complement of the last mask with the current one, up the
masked conjunction of the last mask with the complement of the current
one.  Stated for comparison against the delegate above. -/
def specDown (last cur : Nat) : Nat := (cmpl8 last &&& cur) &&& ALL_BUTTONS

/-- Spec-side up formula, see specDown. -/
def specUp (last cur : Nat) : Nat := (last &&& cmpl8 cur) &&& ALL_BUTTONS

/-- Feed a list of notification payloads through the keypress delegate,
collecting emitted events in order; a raised error aborts the run as it
does in the source. -/
def processK (st : KState) : List (List Nat) → Except PyErr (KState × List Event)
  | [] => .ok (st, [])
  | d :: rest => do
      let (st1, ev1) ← KeypressDelegate.handleNotification st 0 d
      let (st2, ev2) ← processK st1 rest
      Except.ok (st2, ev1 ++ ev2)

/-- SensorDelegate state (lines 542 to 545): last value, and the three
axis buffers.  The x, y, z attributes are only created when the matching
channel first delivers, so they start absent; reading an absent one raises
AttributeError. -/
structure SState where
  lastVal : Nat
  x : Option Int
  y : Option Int
  z : Option Int
deriving DecidableEq, Repr

/-- SensorDelegate state after __init__. -/
def SState.init : SState :=
  { lastVal := 0, x := none, y := none, z := none }

/-- SensorDelegate.handleNotification (lines 548 to 576): channel 110
stores the x axis value, 114 the y axis value, 118 stores z and renders
the completed vector (which needs the buffered x and y to exist); channels
90 and 94 are the two Gen3 buttons, decoded per channel from the explicit
state byte 0x01 down, 0x00 up, 0xB1 hold. -/
def SensorDelegate.handleNotification (st0 : SState) (hnd : Nat) (data : List Nat) :
    Except PyErr (SState × List Event) := do
  let st1 ←
    if hnd = 110 then do
      let v ← unpackH data
      Except.ok { st0 with x := some v }
    else Except.ok st0
  let st2 ←
    if hnd = 114 then do
      let v ← unpackH data
      Except.ok { st1 with y := some v }
    else Except.ok st1
  let (st3, axisEvts) ←
    if hnd = 118 then do
      let v ← unpackH data
      let st := { st2 with z := some v }
      match st.x, st.y with
      | some xv, some yv => Except.ok (st, [Event.vector xv yv v])
      | _, _ => Except.error PyErr.attributeError
    else Except.ok (st2, ([] : List Event))
  let but : Nat := if hnd = 90 then 0x01 else if hnd = 94 then 0x02 else 0x00
  let keyEvts ←
    if but ≠ 0 then do
      let val ← unpackB data
      Except.ok (if val = 0x01 then [Event.buttonDown but]
            else if val = 0x00 then [Event.buttonUp but]
            else if val = 0xB1 then [Event.buttonHold but]
            else ([] : List Event))
    else Except.ok ([] : List Event)
  Except.ok (st3, axisEvts ++ keyEvts)

/-- Feed a list of (channel id, payload) notifications through the sensor
delegate, collecting emitted events in order; a raised error aborts the
run as it does in the source. -/
def processS (st : SState) : List (Nat × List Nat) → Except PyErr (SState × List Event)
  | [] => .ok (st, [])
  | e :: rest => do
      let (st1, ev1) ← SensorDelegate.handleNotification st e.1 e.2
      let (st2, ev2) ← processS st1 rest
      Except.ok (st2, ev1 ++ ev2)

/-- Helper to speak about the events of one call regardless of success:
a raised error emits nothing. -/
def emittedK (r : Except PyErr (KState × List Event)) : List Event :=
  match r with
  | .ok (_, evs) => evs
  | .error _ => []

/-- Same helper for the sensor delegate. -/
def emittedS (r : Except PyErr (SState × List Event)) : List Event :=
  match r with
  | .ok (_, evs) => evs
  | .error _ => []

/-! Dashboard renderer (class render, lines 588 to 636). -/

/-- Renderer state: the absolute cursor position, the highest assigned
line index (-1 before any assignment), and the label to line map. -/
structure RenderState where
  current_pos : Int
  last_pos : Int
  dict : List (String × Int)

/-- render.__init__ (lines 591 to 595). -/
def RenderState.init : RenderState :=
  { current_pos := 0, last_pos := -1, dict := [] }

/-- render.moveCursor (lines 597 to 608): after emitting the escape
sequences the stored position equals the requested line. -/
def RenderState.moveCursor (st : RenderState) (line : Int) : RenderState :=
  { st with current_pos := line }

/-- render.getLine (lines 610 to 623): a known label resolves to its
stored index with no state change; a new label gets last_pos + 1, is
recorded, and the cursor excursion to the end of the screen returns to the
saved position, leaving current_pos unchanged. -/
def RenderState.getLine (st : RenderState) (label : String) : Int × RenderState :=
  match st.dict.lookup label with
  | some v => (v, st)
  | none =>
      let newPos := st.last_pos + 1
      let st1 := { st with last_pos := newPos, dict := (label, newPos) :: st.dict }
      let saved := st.current_pos
      let st2 := if newPos > 0 then st1.moveCursor newPos else st1
      let st3 := if newPos > 0 then st2.moveCursor saved else st2
      (newPos, st3)

/-- render.printDashboard (lines 625 to 630): resolve the line for the
label and move the cursor there; the prints do not change tracked state. -/
def RenderState.printDashboard (st : RenderState) (label : String) : RenderState :=
  let (line, st1) := st.getLine label
  st1.moveCursor line

/-- A sequence of dashboard renders. -/
def processRenders (st : RenderState) : List String → RenderState
  | [] => st
  | l :: rest => processRenders (st.printDashboard l) rest

/-- The distinct labels of a sequence in first-seen order, continuing from
an already seen accumulator. -/
def seenFold (D : List String) : List String → List String
  | [] => D
  | l :: rest => seenFold (if l ∈ D then D else D ++ [l]) rest

/-- The distinct labels of a sequence in first-seen order. -/
def firstSeen (seq : List String) : List String := seenFold [] seq

/-- Position of a label in a list (length of the list when absent). -/
def idxOf (l : String) : List String → Nat
  | [] => 0
  | a :: rest => if a = l then 0 else idxOf l rest + 1

/-! Concrete fixtures used by witnesses and counterexamples. -/

/-- A Gen1 accelerometer service holding a control characteristic and a
data characteristic whose read returns the frame [5, 130, 255]. -/
def accelDemoService : Service :=
  { uuid := TI_UUID 0xAA10,
    chars := [{ uuid := TI_UUID 0xAA12, value := [1] },
              { uuid := TI_UUID 0xAA11, value := [5, 130, 255] }] }

/-- A peripheral whose firmware revision string starts with "1.4 ". -/
def accelDemoPeriph : Peripheral :=
  { services := [accelDemoService], firmwareVersion := "1.4 (May 13 2013)",
    calReads := fun _ => [] }

/-- The accelerometer state after a successful enable on the fixture. -/
def accelDemoEnabled : AccelerometerSensor :=
  { base := { periph := accelDemoPeriph,
              service := some accelDemoService,
              ctrl := some { uuid := TI_UUID 0xAA12, value := [1] },
              data := some { uuid := TI_UUID 0xAA11, value := [5, 130, 255] } },
    scale := 64 }

/-- The 16-byte calibration frame with first raw value v and the rest 0. -/
def calFrame (v : Nat) : List Nat :=
  [v, 0, 0, 0, 0, 0, 0, 0, 0, 0, 0, 0, 0, 0, 0, 0]

/-- A Gen1 barometer service with control, data and calibration
characteristics. -/
def baroDemoService : Service :=
  { uuid := TI_UUID 0xAA40,
    chars := [{ uuid := TI_UUID 0xAA42, value := [] },
              { uuid := TI_UUID 0xAA41, value := [0, 0, 0, 0] },
              { uuid := TI_UUID 0xAA43, value := [] }] }

/-- A peripheral whose calibration characteristic returns a different
frame on the second read than on the first. -/
def baroDemoPeriph : Peripheral :=
  { services := [baroDemoService], firmwareVersion := "",
    calReads := fun n => if n = 0 then calFrame 0 else calFrame 1 }

/-- The barometer after one enable on the fixture peripheral. -/
def baroOnce : Except PyErr BarometerSensor :=
  (BarometerSensor.init baroDemoPeriph).enable

/-- The barometer after two enables on the fixture peripheral. -/
def baroTwice : Except PyErr BarometerSensor :=
  Except.bind baroOnce BarometerSensor.enable

/-- The stored calibration constants of a possibly failed computation. -/
def calOf (r : Except PyErr BarometerSensor) : Option BaroCal :=
  match r with
  | .ok s => s.cal
  | .error _ => none

/-- The calibration read count of a possibly failed computation. -/
def calCountOf (r : Except PyErr BarometerSensor) : Option Nat :=
  match r with
  | .ok s => some s.calReadCount
  | .error _ => none

/-! Theorems. -/

/-- C5: for every set of discovered services, generation detection returns
the Gen2 constant when the optical sensor service identifier is present
and the Gen3 accelerometer service identifier is absent, the Gen3 constant
when both are present, and the Gen1 constant when neither is present. -/
theorem C5_generation_detection (svcs : List Nat) :
    (TI_UUID 0xAA70 ∈ svcs → TI_UUID 0xFFA0 ∉ svcs →
        detectVersion svcs = SENSORTAG_2650) ∧
    (TI_UUID 0xAA70 ∈ svcs → TI_UUID 0xFFA0 ∈ svcs →
        detectVersion svcs = SENSORTAG_1352R) ∧
    (TI_UUID 0xAA70 ∉ svcs → TI_UUID 0xFFA0 ∉ svcs →
        detectVersion svcs = SENSORTAG_V1) := by
  refine ⟨fun h1 h2 => ?_, fun h1 h2 => ?_, fun h1 h2 => ?_⟩ <;>
    simp [detectVersion, h1, h2]

/-- Witness for C5 at three concrete service sets. -/
theorem C5_generation_detection_witness :
    detectVersion [TI_UUID 0xAA70] = SENSORTAG_2650 ∧
    detectVersion [TI_UUID 0xAA70, TI_UUID 0xFFA0] = SENSORTAG_1352R ∧
    detectVersion [] = SENSORTAG_V1 :=
  ⟨(C5_generation_detection _).1 (by decide) (by decide),
   (C5_generation_detection _).2.1 (by decide) (by decide),
   (C5_generation_detection _).2.2 (by decide) (by decide)⟩

/-- C6, code bug: on a Gen1 device the battery attribute is never
assigned, so requesting the battery role raises AttributeError instead of
producing the non-fatal warning the claim promises; battery on Gen1 is
the only (generation, role) pair with a missing attribute, and every
explicitly absent role (attribute set to None) does reach the warning
path of enable_tag. -/
theorem C6_battery_attribute_missing :
    assignedSensor SENSORTAG_V1 Role.battery = none ∧
    Role.all.filter (fun r => assignedSensor SENSORTAG_V1 r = none)
      = [Role.battery] ∧
    Role.all.filter (fun r => assignedSensor SENSORTAG_2650 r = none) = [] ∧
    Role.all.filter (fun r => assignedSensor SENSORTAG_1352R r = none) = [] ∧
    assignedSensor SENSORTAG_V1 Role.lightmeter = some none ∧
    enable_tag "Lightmeter" none = EnableOutcome.warning "Lightmeter" := by
  refine ⟨rfl, rfl, rfl, rfl, rfl, rfl⟩

/-- C7: read before a successful enable fails with the NotReady condition
(the data endpoint is unbound), and after a successful enable a well
formed frame decodes to a physical reading.  Shown on the Gen1
accelerometer driver, whose read path is the shared SensorBase one. -/
theorem C7_read_requires_enable (p : Peripheral) :
    (AccelerometerSensor.init p).read = .error PyErr.notReady ∧
    (∀ s' d a b c, (AccelerometerSensor.init p).enable = .ok s' →
      s'.base.data = some d → d.value = [a, b, c] →
      ∃ r, s'.read = Except.ok r) := by
  constructor
  · rfl
  · intro s' d a b c _hen hdata hval
    refine ⟨((signedByte a : ℚ) / s'.scale, (signedByte b : ℚ) / s'.scale,
             (signedByte c : ℚ) / s'.scale), ?_⟩
    simp [AccelerometerSensor.read, SensorBase.read, hdata, hval, unpack_bbb,
      Bind.bind, Except.bind]

/-- Witness for C7 on the concrete fixture peripheral. -/
theorem C7_read_requires_enable_witness :
    (AccelerometerSensor.init accelDemoPeriph).read = .error PyErr.notReady ∧
    ∃ r, accelDemoEnabled.read = Except.ok r :=
  ⟨(C7_read_requires_enable accelDemoPeriph).1,
   (C7_read_requires_enable accelDemoPeriph).2 accelDemoEnabled
     { uuid := TI_UUID 0xAA11, value := [5, 130, 255] } 5 130 255 rfl rfl rfl⟩

/-- C8: the Gen1 accelerometer decodes a three byte signed frame to each
raw axis value divided by a scale that is 64 when the firmware revision
string of the device starts with "1.4 " and 16 otherwise. -/
theorem C8_gen1_accelerometer_scale (p : Peripheral) (s' : AccelerometerSensor)
    (d : Characteristic) (a b c : Nat)
    (hen : (AccelerometerSensor.init p).enable = .ok s')
    (hdata : s'.base.data = some d) (hval : d.value = [a, b, c]) :
    s'.read = Except.ok
      ((signedByte a : ℚ) / (if strStartsWith p.firmwareVersion "1.4 " then 64 else 16),
       (signedByte b : ℚ) / (if strStartsWith p.firmwareVersion "1.4 " then 64 else 16),
       (signedByte c : ℚ) / (if strStartsWith p.firmwareVersion "1.4 " then 64 else 16)) := by
  have hscale : s'.scale =
      (if strStartsWith p.firmwareVersion "1.4 " then (64 : ℚ) else 16) := by
    unfold AccelerometerSensor.enable at hen
    cases hb : (AccelerometerSensor.init p).base.enable (TI_UUID 0xAA10)
        (TI_UUID 0xAA12) (TI_UUID 0xAA11) with
    | error e => rw [hb] at hen; simp [Bind.bind, Except.bind] at hen
    | ok base =>
        rw [hb] at hen
        simp [Bind.bind, Except.bind] at hen
        rw [← hen]
        rfl
  simp [AccelerometerSensor.read, SensorBase.read, hdata, hval, unpack_bbb, hscale,
      Bind.bind, Except.bind]

/-- Characterization of the sensor delegate on the x axis channel. -/
theorem handleS_eq_110 (st : SState) (d : List Nat) :
    SensorDelegate.handleNotification st 110 d =
      match unpackH d with
      | .error e => .error e
      | .ok v => .ok ({ st with x := some v }, []) := by
  cases h : unpackH d <;>
    simp [SensorDelegate.handleNotification, h, Bind.bind, Except.bind]

/-- Characterization of the sensor delegate on the y axis channel. -/
theorem handleS_eq_114 (st : SState) (d : List Nat) :
    SensorDelegate.handleNotification st 114 d =
      match unpackH d with
      | .error e => .error e
      | .ok v => .ok ({ st with y := some v }, []) := by
  cases h : unpackH d <;>
    simp [SensorDelegate.handleNotification, h, Bind.bind, Except.bind]

/-- Characterization of the sensor delegate on the z axis channel: the
delivery completes the vector only when both buffered axes exist. -/
theorem handleS_eq_118 (st : SState) (d : List Nat) :
    SensorDelegate.handleNotification st 118 d =
      match unpackH d with
      | .error e => .error e
      | .ok v =>
          match st.x, st.y with
          | some xv, some yv => .ok ({ st with z := some v }, [Event.vector xv yv v])
          | _, _ => .error PyErr.attributeError := by
  cases h : unpackH d with
  | error e => simp [SensorDelegate.handleNotification, h, Bind.bind, Except.bind]
  | ok v =>
      cases hx : st.x <;> cases hy : st.y <;>
        simp [SensorDelegate.handleNotification, h, hx, hy, Bind.bind, Except.bind]

/-- Characterization of the sensor delegate on a button channel. -/
theorem handleS_eq_key (st : SState) (hnd : Nat) (d : List Nat) (but : Nat)
    (h : (hnd = 90 ∧ but = 0x01) ∨ (hnd = 94 ∧ but = 0x02)) :
    SensorDelegate.handleNotification st hnd d =
      match unpackB d with
      | .error e => .error e
      | .ok val => .ok (st,
          if val = 0x01 then [Event.buttonDown but]
          else if val = 0x00 then [Event.buttonUp but]
          else if val = 0xB1 then [Event.buttonHold but]
          else []) := by
  rcases h with ⟨h1, h2⟩ | ⟨h1, h2⟩ <;> subst h1 <;> subst h2 <;>
    cases h : unpackB d <;>
      simp [SensorDelegate.handleNotification, h, Bind.bind, Except.bind]

/-- Characterization of the sensor delegate on an unknown channel. -/
theorem handleS_eq_other (st : SState) (hnd : Nat) (d : List Nat)
    (h110 : hnd ≠ 110) (h114 : hnd ≠ 114) (h118 : hnd ≠ 118)
    (h90 : hnd ≠ 90) (h94 : hnd ≠ 94) :
    SensorDelegate.handleNotification st hnd d = .ok (st, []) := by
  simp [SensorDelegate.handleNotification, h110, h114, h118, h90, h94,
    Bind.bind, Except.bind]

/-- If two masks agree on the two button bits, the down edge computed
against the 8-bit complement is empty. -/
theorem and3_cmpl8_eq_zero (x y : Nat) (h : x &&& ALL_BUTTONS = y &&& ALL_BUTTONS) :
    (x &&& cmpl8 y) &&& ALL_BUTTONS = 0 := by
  have hAB : ALL_BUTTONS = 3 := rfl
  rw [hAB] at h ⊢
  apply Nat.eq_of_testBit_eq
  intro i
  have hx := congrArg (fun n => n.testBit i) h
  simp only [Nat.testBit_and] at hx ⊢
  simp only [cmpl8, Nat.testBit_xor, Nat.zero_testBit]
  by_cases hi : i < 2
  · have h3 : (3 : Nat).testBit i = true := by interval_cases i <;> decide
    have h255 : (255 : Nat).testBit i = true := by interval_cases i <;> decide
    rw [h3, Bool.and_true, Bool.and_true] at hx
    rw [h3, h255, Bool.and_true, hx]
    simp
  · have h3 : (3 : Nat).testBit i = false :=
      Nat.testBit_lt_two_pow (by calc (3 : Nat) < 2 ^ 2 := by norm_num
                                   _ ≤ 2 ^ i := Nat.pow_le_pow_right (by norm_num) (by omega))
    simp [h3]

/-- C3: from last observed mask 0, the mask sequence 0x00, 0x02, 0x00
yields exactly the events DOWN(0x02) then UP(0x02); in general a sample
whose masked value equals the previous one emits nothing; and each call
emits exactly the events given by the spec formulas down equal to the
masked conjunction of the complemented last mask with the current one and
up equal to the masked conjunction of the last mask with the complemented
current one. -/
theorem C3_keypress_edge_detection :
    processK ⟨0⟩ [[0x00], [0x02], [0x00]]
        = .ok (⟨0⟩, [Event.buttonDown 0x02, Event.buttonUp 0x02]) ∧
    (∀ st val hnd, val &&& ALL_BUTTONS = st.lastVal &&& ALL_BUTTONS →
        KeypressDelegate.handleNotification st hnd [val] = .ok (⟨val⟩, [])) ∧
    (∀ st val hnd, KeypressDelegate.handleNotification st hnd [val] = .ok (⟨val⟩,
        (if specDown st.lastVal val ≠ 0
            then [Event.buttonDown (specDown st.lastVal val)] else [])
          ++ (if specUp st.lastVal val ≠ 0
            then [Event.buttonUp (specUp st.lastVal val)] else []))) := by
  refine ⟨by rfl, fun st val hnd h => ?_, fun st val hnd => ?_⟩
  · have hdown : (val &&& cmpl8 st.lastVal) &&& ALL_BUTTONS = 0 :=
      and3_cmpl8_eq_zero val st.lastVal h
    have hup : (cmpl8 val &&& st.lastVal) &&& ALL_BUTTONS = 0 := by
      rw [Nat.and_comm (cmpl8 val) st.lastVal]
      exact and3_cmpl8_eq_zero st.lastVal val h.symm
    simp [KeypressDelegate.handleNotification, unpackB, hdown, hup]
  · simp only [KeypressDelegate.handleNotification, unpackB, specDown, specUp,
      Nat.and_comm]

/-- Witness for C3: the unchanged-mask conjunct at a concrete state. -/
theorem C3_keypress_edge_detection_witness :
    KeypressDelegate.handleNotification ⟨0x06⟩ 0 [0x0A] = .ok (⟨0x0A⟩, []) :=
  C3_keypress_edge_detection.2.1 ⟨0x06⟩ 0x0A 0 (by decide)

/-- C2, counterexample: one call of the Gen1/2 keypress handle can emit
two events.  With last observed mask 0x01 (right button held), the sample
0x02 is a simultaneous release of the right button and press of the left
button, and the single call emits both a DOWN and an UP event. -/
theorem C2_counterexample :
    (emittedK (KeypressDelegate.handleNotification ⟨0x01⟩ 0 [0x02])).length = 2 ∧
    emittedK (KeypressDelegate.handleNotification ⟨0x01⟩ 0 [0x02])
      = [Event.buttonDown 0x02, Event.buttonUp 0x01] := by
  refine ⟨rfl, rfl⟩

/-- C2 as amended: one call of the keypress delegate handle emits at most
two events (at most one DOWN and at most one UP), and one call of the
Gen3 sensor delegate handle emits at most one event; both handles are by
construction pure functions of the prior state and the input. -/
theorem C2_event_bound (st : KState) (st2 : SState) (hnd : Nat) (data : List Nat) :
    (emittedK (KeypressDelegate.handleNotification st hnd data)).length ≤ 2 ∧
    (emittedS (SensorDelegate.handleNotification st2 hnd data)).length ≤ 1 := by
  constructor
  · cases h : unpackB data with
    | error e => simp [emittedK, KeypressDelegate.handleNotification, h]
    | ok val =>
        simp only [emittedK, KeypressDelegate.handleNotification, h]
        split <;> split <;> simp
  · by_cases h110 : hnd = 110
    · subst h110
      rw [handleS_eq_110]
      cases h : unpackH data <;> simp [emittedS]
    · by_cases h114 : hnd = 114
      · subst h114
        rw [handleS_eq_114]
        cases h : unpackH data <;> simp [emittedS]
      · by_cases h118 : hnd = 118
        · subst h118
          rw [handleS_eq_118]
          cases h : unpackH data with
          | error e => simp [emittedS]
          | ok v => cases hx : st2.x <;> cases hy : st2.y <;> simp [emittedS]
        · by_cases h90 : hnd = 90
          · subst h90
            rw [handleS_eq_key st2 90 data 0x01 (Or.inl ⟨rfl, rfl⟩)]
            cases h : unpackB data with
            | error e => simp [emittedS]
            | ok val => simp only [emittedS]; split_ifs <;> simp
          · by_cases h94 : hnd = 94
            · subst h94
              rw [handleS_eq_key st2 94 data 0x02 (Or.inr ⟨rfl, rfl⟩)]
              cases h : unpackB data with
              | error e => simp [emittedS]
              | ok val => simp only [emittedS]; split_ifs <;> simp
            · rw [handleS_eq_other st2 hnd data h110 h114 h118 h90 h94]
              simp [emittedS]

/-- C1: delivering the x channel bytes, then the y channel bytes, then
the z channel bytes emits exactly one vector event, and it is emitted
while handling the z delivery (the first two deliveries emit nothing);
delivering only x then y emits no event at all. -/
theorem C1_fanin_x_y_z (a1 b1 a2 b2 a3 b3 : Nat) :
    processS SState.init [(110, [a1, b1]), (114, [a2, b2])]
      = .ok ({ lastVal := 0, x := some (i16le a1 b1), y := some (i16le a2 b2),
               z := none }, []) ∧
    processS SState.init [(110, [a1, b1]), (114, [a2, b2]), (118, [a3, b3])]
      = .ok ({ lastVal := 0, x := some (i16le a1 b1), y := some (i16le a2 b2),
               z := some (i16le a3 b3) },
             [Event.vector (i16le a1 b1) (i16le a2 b2) (i16le a3 b3)]) := by
  constructor <;>
    simp [processS, handleS_eq_110, handleS_eq_114, handleS_eq_118, unpackH,
      SState.init, Bind.bind, Except.bind]

/-- Witness for C8 on the concrete fixture peripheral, firmware "1.4 ". -/
theorem C8_gen1_accelerometer_scale_witness :
    accelDemoEnabled.read = Except.ok
      ((signedByte 5 : ℚ) /
        (if strStartsWith accelDemoPeriph.firmwareVersion "1.4 " then 64 else 16),
       (signedByte 130 : ℚ) /
        (if strStartsWith accelDemoPeriph.firmwareVersion "1.4 " then 64 else 16),
       (signedByte 255 : ℚ) /
        (if strStartsWith accelDemoPeriph.firmwareVersion "1.4 " then 64 else 16)) :=
  C8_gen1_accelerometer_scale accelDemoPeriph accelDemoEnabled
    { uuid := TI_UUID 0xAA11, value := [5, 130, 255] } 5 130 255 rfl rfl rfl

/-- C4, counterexample: on a device whose calibration characteristic
returns a different frame on its second read, a second enable call both
performs a second calibration read (count 2, not 1) and changes the
stored constants, so the constants are not loaded exactly once per
device lifetime. -/
theorem C4_counterexample :
    calCountOf baroOnce = some 1 ∧
    calCountOf baroTwice = some 2 ∧
    (calOf baroOnce).isSome = true ∧
    (calOf baroTwice).isSome = true ∧
    calOf baroOnce ≠ calOf baroTwice := by
  have h1 : calOf baroOnce = some (mkBaroCal (0, 0, 0, 0, 0, 0, 0, 0)) := rfl
  have h2 : calOf baroTwice = some (mkBaroCal (1, 0, 0, 0, 0, 0, 0, 0)) := rfl
  refine ⟨rfl, rfl, rfl, rfl, ?_⟩
  rw [h1, h2]
  intro h
  have hc := congrArg (fun o => Option.map BaroCal.c1_s o) h
  simp only [Option.map_some, mkBaroCal] at hc
  norm_num at hc

/-- C4 as amended: the calibration constants are loaded lazily (absent
after construction) but are reloaded by every successful enable call: the
calibration read count grows by one and the stored constants are the ones
decoded from the latest calibration read. -/
theorem C4_reload_on_every_enable (p : Peripheral) (s s' : BarometerSensor)
    (h : s.enable = .ok s') :
    (BarometerSensor.init p).cal = none ∧
    (BarometerSensor.init p).calReadCount = 0 ∧
    s'.calReadCount = s.calReadCount + 1 ∧
    ∃ cs, unpackCal (s.base.periph.calReads s.calReadCount) = .ok cs ∧
      s'.cal = some (mkBaroCal cs) := by
  refine ⟨rfl, rfl, ?_⟩
  unfold BarometerSensor.enable at h
  simp only [Bind.bind, Except.bind] at h
  split at h
  · cases h
  · split at h
    · split at h
      · cases h
      · split at h
        · cases h
        · rename_i cs hcs
          cases h
          exact ⟨rfl, cs, hcs, rfl⟩
    · cases h

/-- A successful call on a channel other than the x axis one keeps an
absent x buffer absent and emits no vector event. -/
theorem handleS_x_pres (st : SState) (hnd : Nat) (d : List Nat)
    (st1 : SState) (ev1 : List Event) (hne : hnd ≠ 110) (hx : st.x = none)
    (h : SensorDelegate.handleNotification st hnd d = .ok (st1, ev1)) :
    st1.x = none ∧ ∀ v1 v2 v3, Event.vector v1 v2 v3 ∉ ev1 := by
  by_cases h114 : hnd = 114
  · subst h114
    rw [handleS_eq_114] at h
    cases hu : unpackH d with
    | error e => rw [hu] at h; cases h
    | ok v => rw [hu] at h; cases h; exact ⟨hx, by simp⟩
  · by_cases h118 : hnd = 118
    · subst h118
      rw [handleS_eq_118] at h
      cases hu : unpackH d with
      | error e => rw [hu] at h; cases h
      | ok v =>
          rw [hu, hx] at h
          cases hy : st.y <;> rw [hy] at h <;> cases h
    · by_cases h90 : hnd = 90
      · subst h90
        rw [handleS_eq_key st 90 d 0x01 (Or.inl ⟨rfl, rfl⟩)] at h
        cases hu : unpackB d with
        | error e => rw [hu] at h; cases h
        | ok val =>
            rw [hu] at h
            cases h
            refine ⟨hx, ?_⟩
            split_ifs <;> simp
      · by_cases h94 : hnd = 94
        · subst h94
          rw [handleS_eq_key st 94 d 0x02 (Or.inr ⟨rfl, rfl⟩)] at h
          cases hu : unpackB d with
          | error e => rw [hu] at h; cases h
          | ok val =>
              rw [hu] at h
              cases h
              refine ⟨hx, ?_⟩
              split_ifs <;> simp
        · rw [handleS_eq_other st hnd d hne h114 h118 h90 h94] at h
          cases h
          exact ⟨hx, by simp⟩

/-- A successful call on a channel other than the y axis one keeps an
absent y buffer absent and emits no vector event. -/
theorem handleS_y_pres (st : SState) (hnd : Nat) (d : List Nat)
    (st1 : SState) (ev1 : List Event) (hne : hnd ≠ 114) (hy : st.y = none)
    (h : SensorDelegate.handleNotification st hnd d = .ok (st1, ev1)) :
    st1.y = none ∧ ∀ v1 v2 v3, Event.vector v1 v2 v3 ∉ ev1 := by
  by_cases h110 : hnd = 110
  · subst h110
    rw [handleS_eq_110] at h
    cases hu : unpackH d with
    | error e => rw [hu] at h; cases h
    | ok v => rw [hu] at h; cases h; exact ⟨hy, by simp⟩
  · by_cases h118 : hnd = 118
    · subst h118
      rw [handleS_eq_118] at h
      cases hu : unpackH d with
      | error e => rw [hu] at h; cases h
      | ok v =>
          rw [hu, hy] at h
          cases hx : st.x <;> rw [hx] at h <;> cases h
    · by_cases h90 : hnd = 90
      · subst h90
        rw [handleS_eq_key st 90 d 0x01 (Or.inl ⟨rfl, rfl⟩)] at h
        cases hu : unpackB d with
        | error e => rw [hu] at h; cases h
        | ok val =>
            rw [hu] at h
            cases h
            refine ⟨hy, ?_⟩
            split_ifs <;> simp
      · by_cases h94 : hnd = 94
        · subst h94
          rw [handleS_eq_key st 94 d 0x02 (Or.inr ⟨rfl, rfl⟩)] at h
          cases hu : unpackB d with
          | error e => rw [hu] at h; cases h
          | ok val =>
              rw [hu] at h
              cases h
              refine ⟨hy, ?_⟩
              split_ifs <;> simp
        · rw [handleS_eq_other st hnd d h110 hne h118 h90 h94] at h
          cases h
          exact ⟨hy, by simp⟩

/-- Processing a run with no x axis delivery from a state with no x
buffer leaves the x buffer absent and emits no vector event. -/
theorem processS_x_none (seq : List (Nat × List Nat)) :
    ∀ st st' evs, (∀ e ∈ seq, e.1 ≠ 110) → st.x = none →
      processS st seq = .ok (st', evs) →
      st'.x = none ∧ ∀ v1 v2 v3, Event.vector v1 v2 v3 ∉ evs := by
  induction seq with
  | nil =>
      intro st st' evs _ hx h
      cases h
      exact ⟨hx, by simp⟩
  | cons e rest ih =>
      intro st st' evs hne hx h
      simp only [processS, Bind.bind, Except.bind] at h
      split at h
      · cases h
      · rename_i p1 h1
        split at h
        · cases h
        · rename_i p2 h2
          cases h
          have step := handleS_x_pres st e.1 e.2 p1.1 p1.2
            (hne e (List.mem_cons_self e rest)) hx h1
          have tail := ih p1.1 p2.1 p2.2
            (fun e2 he2 => hne e2 (List.mem_cons_of_mem e he2)) step.1 h2
          refine ⟨tail.1, ?_⟩
          intro v1 v2 v3 hmem
          rcases List.mem_append.mp hmem with hm | hm
          · exact step.2 v1 v2 v3 hm
          · exact tail.2 v1 v2 v3 hm

/-- Processing a run with no y axis delivery from a state with no y
buffer leaves the y buffer absent and emits no vector event. -/
theorem processS_y_none (seq : List (Nat × List Nat)) :
    ∀ st st' evs, (∀ e ∈ seq, e.1 ≠ 114) → st.y = none →
      processS st seq = .ok (st', evs) →
      st'.y = none ∧ ∀ v1 v2 v3, Event.vector v1 v2 v3 ∉ evs := by
  induction seq with
  | nil =>
      intro st st' evs _ hy h
      cases h
      exact ⟨hy, by simp⟩
  | cons e rest ih =>
      intro st st' evs hne hy h
      simp only [processS, Bind.bind, Except.bind] at h
      split at h
      · cases h
      · rename_i p1 h1
        split at h
        · cases h
        · rename_i p2 h2
          cases h
          have step := handleS_y_pres st e.1 e.2 p1.1 p1.2
            (hne e (List.mem_cons_self e rest)) hy h1
          have tail := ih p1.1 p2.1 p2.2
            (fun e2 he2 => hne e2 (List.mem_cons_of_mem e he2)) step.1 h2
          refine ⟨tail.1, ?_⟩
          intro v1 v2 v3 hmem
          rcases List.mem_append.mp hmem with hm | hm
          · exact step.2 v1 v2 v3 hm
          · exact tail.2 v1 v2 v3 hm

/-- Processing a concatenation runs the first part, then the second from
the reached state, concatenating events; errors propagate. -/
theorem processS_append (s1 : List (Nat × List Nat)) :
    ∀ st s2, processS st (s1 ++ s2) =
      Except.bind (processS st s1) (fun r1 =>
        Except.bind (processS r1.1 s2) (fun r2 => .ok (r2.1, r1.2 ++ r2.2))) := by
  induction s1 with
  | nil =>
      intro st s2
      simp only [List.nil_append, processS, Except.bind]
      cases h : processS st s2 <;> simp
  | cons e rest ih =>
      intro st s2
      simp only [List.cons_append, processS, Bind.bind, Except.bind, ih]
      cases h1 : SensorDelegate.handleNotification st e.1 e.2 with
      | error er => rfl
      | ok p1 =>
          simp only [List.append_eq, ih]
          cases h2 : processS p1.1 rest with
          | error er => simp [Except.bind]
          | ok p2 =>
              simp only [Except.bind]
              cases h3 : processS p2.1 s2 with
              | error er => simp
              | ok p3 => simp [List.append_assoc]

/-- C10: when the z axis channel delivers before both the x and the y
axis channels have each delivered at least once, handling the z delivery
fails with AttributeError (a buffered axis attribute does not exist), no
vector event has been emitted by the prior run, and the whole run
extended by the z delivery aborts with that error. -/
theorem C10_z_before_x_y (seq : List (Nat × List Nat)) (st : SState)
    (evs : List Event) (a b : Nat)
    (hp : processS SState.init seq = .ok (st, evs))
    (hmiss : (∀ e ∈ seq, e.1 ≠ 110) ∨ (∀ e ∈ seq, e.1 ≠ 114)) :
    SensorDelegate.handleNotification st 118 [a, b] = .error PyErr.attributeError ∧
    (∀ v1 v2 v3, Event.vector v1 v2 v3 ∉ evs) ∧
    processS SState.init (seq ++ [(118, [a, b])]) = .error PyErr.attributeError := by
  have hfail : SensorDelegate.handleNotification st 118 [a, b]
      = .error PyErr.attributeError ∧ ∀ v1 v2 v3, Event.vector v1 v2 v3 ∉ evs := by
    rcases hmiss with hm | hm
    · have hx := processS_x_none seq SState.init st evs hm rfl hp
      refine ⟨?_, hx.2⟩
      rw [handleS_eq_118]
      cases hy : st.y <;> simp [unpackH, hx.1, hy]
    · have hy := processS_y_none seq SState.init st evs hm rfl hp
      refine ⟨?_, hy.2⟩
      rw [handleS_eq_118]
      cases hx : st.x <;> simp [unpackH, hy.1, hx]
  refine ⟨hfail.1, hfail.2, ?_⟩
  rw [processS_append, hp]
  simp only [Except.bind, processS, Bind.bind, hfail.1]

/-- Witness for C10: a y only run followed by a z delivery. -/
theorem C10_z_before_x_y_witness :
    SensorDelegate.handleNotification
        { lastVal := 0, x := none, y := some 0, z := none } 118 [0, 0]
      = .error PyErr.attributeError ∧
    processS SState.init [(114, [0, 0]), (118, [0, 0])]
      = .error PyErr.attributeError := by
  have h := C10_z_before_x_y [(114, [0, 0])]
    { lastVal := 0, x := none, y := some 0, z := none } [] 0 0 rfl
    (Or.inl (by decide))
  exact ⟨h.1, h.2.2⟩

/-- Witness for C4 as amended, on the fixture peripheral. -/
theorem C4_reload_on_every_enable_witness :
    (BarometerSensor.init baroDemoPeriph).cal = none ∧
    (BarometerSensor.init baroDemoPeriph).calReadCount = 0 ∧
    ∃ s', (BarometerSensor.init baroDemoPeriph).enable = .ok s' ∧
      s'.calReadCount = 1 ∧
      ∃ cs, unpackCal (baroDemoPeriph.calReads 0) = .ok cs ∧
        s'.cal = some (mkBaroCal cs) := by
  obtain ⟨s', hs'⟩ : ∃ s', (BarometerSensor.init baroDemoPeriph).enable = .ok s' :=
    ⟨_, rfl⟩
  have h := C4_reload_on_every_enable baroDemoPeriph _ _ hs'
  exact ⟨h.1, h.2.1, s', hs', h.2.2.1, h.2.2.2⟩

/-- A label appended to a list it is not in sits at the old length. -/
theorem idxOf_append_self (D : List String) (l : String) (h : l ∉ D) :
    idxOf l (D ++ [l]) = D.length := by
  induction D with
  | nil => simp [idxOf]
  | cons a rest ih =>
      have hne : ¬(a = l) := fun he => h (he ▸ List.mem_cons_self a rest)
      simp only [List.cons_append, List.append_eq, idxOf, hne, if_false]
      rw [ih (fun hm => h (List.mem_cons_of_mem a hm))]
      simp

/-- Appending a label does not move the position of present labels. -/
theorem idxOf_append_of_mem (D : List String) (l x : String) (h : l ∈ D) :
    idxOf l (D ++ [x]) = idxOf l D := by
  induction D with
  | nil => cases h
  | cons a rest ih =>
      by_cases hal : a = l
      · simp [idxOf, hal]
      · have hm : l ∈ rest := by
          rcases List.mem_cons.mp h with he | hm
          · exact absurd he.symm hal
          · exact hm
        simp [idxOf, hal, ih hm]

/-- seenFold over a concatenation composes. -/
theorem seenFold_append_eq (s1 : List String) :
    ∀ D s2, seenFold D (s1 ++ s2) = seenFold (seenFold D s1) s2 := by
  induction s1 with
  | nil => intro D s2; rfl
  | cons a rest ih =>
      intro D s2
      simp only [List.cons_append, seenFold]
      exact ih _ s2

/-- Membership in a seenFold result. -/
theorem mem_seenFold (seq : List String) :
    ∀ D l, l ∈ seenFold D seq ↔ l ∈ D ∨ l ∈ seq := by
  induction seq with
  | nil => intro D l; simp [seenFold]
  | cons a rest ih =>
      intro D l
      by_cases ha : a ∈ D
      · rw [show seenFold D (a :: rest) = seenFold D rest from by
          simp [seenFold, ha]]
        rw [ih D l]
        constructor
        · rintro (h | h)
          · exact Or.inl h
          · exact Or.inr (List.mem_cons_of_mem a h)
        · rintro (h | h)
          · exact Or.inl h
          · rcases List.mem_cons.mp h with he | hm
            · exact Or.inl (by rw [he]; exact ha)
            · exact Or.inr hm
      · rw [show seenFold D (a :: rest) = seenFold (D ++ [a]) rest from by
          simp [seenFold, ha]]
        rw [ih (D ++ [a]) l]
        simp only [List.mem_append, List.mem_cons, List.mem_singleton]
        tauto

/-- Extending the fold does not move the position of present labels. -/
theorem idxOf_seenFold (seq : List String) :
    ∀ D l, l ∈ D → idxOf l (seenFold D seq) = idxOf l D := by
  induction seq with
  | nil => intro D l _; rfl
  | cons a rest ih =>
      intro D l h
      by_cases ha : a ∈ D
      · rw [show seenFold D (a :: rest) = seenFold D rest from by
          simp [seenFold, ha]]
        exact ih D l h
      · rw [show seenFold D (a :: rest) = seenFold (D ++ [a]) rest from by
          simp [seenFold, ha]]
        rw [ih (D ++ [a]) l (List.mem_append_left [a] h)]
        exact idxOf_append_of_mem D l a h

/-- Invariant of the dashboard renderer: at every point, the label map
holds exactly the labels seen so far, each at its first-seen position,
and last_pos is one less than the number of distinct labels seen. -/
theorem processRenders_inv (seq : List String) :
    ∀ D st,
      (∀ l, st.dict.lookup l
          = if l ∈ D then some ((idxOf l D : Nat) : Int) else none) →
      st.last_pos = (D.length : Int) - 1 →
      (∀ l, (processRenders st seq).dict.lookup l
          = if l ∈ seenFold D seq
            then some ((idxOf l (seenFold D seq) : Nat) : Int) else none) ∧
      (processRenders st seq).last_pos = ((seenFold D seq).length : Int) - 1 := by
  induction seq with
  | nil => intro D st h1 h2; exact ⟨h1, h2⟩
  | cons a rest ih =>
      intro D st h1 h2
      by_cases ha : a ∈ D
      · have hl : st.dict.lookup a = some ((idxOf a D : Nat) : Int) := by
          rw [h1 a]; simp [ha]
        have hstep : st.printDashboard a
            = { st with current_pos := ((idxOf a D : Nat) : Int) } := by
          simp [RenderState.printDashboard, RenderState.getLine, hl,
            RenderState.moveCursor]
        rw [show processRenders st (a :: rest)
            = processRenders (st.printDashboard a) rest from rfl]
        rw [hstep]
        rw [show seenFold D (a :: rest) = seenFold D rest from by
          simp [seenFold, ha]]
        exact ih D _ h1 h2
      · have hl : st.dict.lookup a = none := by rw [h1 a]; simp [ha]
        have hnew : st.last_pos + 1 = ((D.length : Nat) : Int) := by
          rw [h2]; ring
        have hstep : st.printDashboard a =
            { current_pos := st.last_pos + 1, last_pos := st.last_pos + 1,
              dict := (a, st.last_pos + 1) :: st.dict } := by
          simp only [RenderState.printDashboard, RenderState.getLine, hl,
            RenderState.moveCursor]
          split_ifs <;> rfl
        rw [show processRenders st (a :: rest)
            = processRenders (st.printDashboard a) rest from rfl]
        rw [hstep]
        rw [show seenFold D (a :: rest) = seenFold (D ++ [a]) rest from by
          simp [seenFold, ha]]
        apply ih (D ++ [a])
        · intro l
          by_cases hla : l = a
          · subst hla
            rw [show ((l, st.last_pos + 1) :: st.dict).lookup l
                = some (st.last_pos + 1) from by simp [List.lookup_cons]]
            rw [if_pos (List.mem_append_right D (List.mem_singleton.mpr rfl))]
            rw [idxOf_append_self D l ha, hnew]
          · rw [show ((a, st.last_pos + 1) :: st.dict).lookup l
                = st.dict.lookup l from by
              simp [List.lookup_cons, beq_false_of_ne hla]]
            rw [h1 l]
            by_cases hld : l ∈ D
            · rw [if_pos hld,
                if_pos (List.mem_append_left [a] hld),
                idxOf_append_of_mem D l a hld]
            · rw [if_neg hld, if_neg (fun hm => by
                rcases List.mem_append.mp hm with hm1 | hm1
                · exact hld hm1
                · exact hla (List.mem_singleton.mp hm1))]
        · simp only [List.length_append, List.length_singleton]
          push_cast
          omega

/-- C9: after any sequence of dashboard renders, every label that was
rendered is mapped to the position of its first occurrence among the
distinct labels in first-seen order (so the first label ever rendered
holds line 0 and each subsequently first-seen label the next unused
index), resolving the label again yields that same index, and the index
survives any further renders of other labels unchanged. -/
theorem C9_dashboard_line_assignment (seq : List String) (l : String)
    (h : l ∈ seq) :
    (processRenders RenderState.init seq).dict.lookup l
        = some ((idxOf l (firstSeen seq) : Nat) : Int) ∧
    ((processRenders RenderState.init seq).getLine l).1
        = ((idxOf l (firstSeen seq) : Nat) : Int) ∧
    ∀ seq2, (processRenders RenderState.init (seq ++ seq2)).dict.lookup l
        = some ((idxOf l (firstSeen seq) : Nat) : Int) := by
  have hbase : ∀ l2, RenderState.init.dict.lookup l2
      = if l2 ∈ ([] : List String)
        then some ((idxOf l2 ([] : List String) : Nat) : Int) else none := by
    intro l2; simp [RenderState.init]
  have hpos : RenderState.init.last_pos = ((List.length ([] : List String) : Nat) : Int) - 1 := by
    simp [RenderState.init]
  have hmem : l ∈ firstSeen seq := (mem_seenFold seq [] l).mpr (Or.inr h)
  have hmain := processRenders_inv seq [] RenderState.init hbase hpos
  have hlook : (processRenders RenderState.init seq).dict.lookup l
      = some ((idxOf l (firstSeen seq) : Nat) : Int) := by
    rw [(hmain.1 l : _)]
    rw [if_pos (show l ∈ seenFold [] seq from hmem)]
    rfl
  refine ⟨hlook, ?_, ?_⟩
  · rw [show ((processRenders RenderState.init seq).getLine l)
        = (((idxOf l (firstSeen seq) : Nat) : Int),
           processRenders RenderState.init seq) from by
      simp [RenderState.getLine, hlook]]
  · intro seq2
    have hmain2 := processRenders_inv (seq ++ seq2) [] RenderState.init hbase hpos
    rw [(hmain2.1 l : _)]
    have hmem2 : l ∈ seenFold [] (seq ++ seq2) := by
      rw [(mem_seenFold (seq ++ seq2) [] l : _)]
      exact Or.inr (List.mem_append_left seq2 h)
    rw [if_pos hmem2]
    rw [show seenFold [] (seq ++ seq2) = seenFold (firstSeen seq) seq2 from
      seenFold_append_eq seq [] seq2]
    rw [idxOf_seenFold seq2 (firstSeen seq) l hmem]

/-- Witness for C9 on a concrete render sequence. -/
theorem C9_dashboard_line_assignment_witness :
    (processRenders RenderState.init
        ["Temp: ", "Humidity: ", "Temp: "]).dict.lookup "Humidity: " = some 1 ∧
    ((processRenders RenderState.init
        ["Temp: ", "Humidity: ", "Temp: "]).getLine "Humidity: ").1 = 1 ∧
    (processRenders RenderState.init
        (["Temp: ", "Humidity: ", "Temp: "] ++ ["Barometer: ", "Humidity: "])).dict.lookup
        "Humidity: " = some 1 := by
  have h := C9_dashboard_line_assignment ["Temp: ", "Humidity: ", "Temp: "]
    "Humidity: " (by simp)
  exact ⟨h.1, h.2.1, h.2.2 ["Barometer: ", "Humidity: "]⟩

end Sensortag
